import Mathlib

/-!
Verification of the SWE-bench Pro local evaluation harness:
`swebench/harness/image_uri.py` and `swebench/harness/run_local_evaluation.py`.

Text is modelled as `List Char` (with `String` wrappers at the boundaries).
The Python string operations the source uses — `startswith`, `endswith`,
substring membership (`in`), `replace` (all occurrences and count=1),
`split` on a one-character separator, `strip`, `lower` — are embedded as
executable structural recursions below.
-/

namespace SweBench

/-! ### Python string primitives -/

/-- Python `s.startswith(pat)` on character lists. -/
def leadsWith : List Char → List Char → Bool
  | [], _ => true
  | _ :: _, [] => false
  | a :: pa, b :: s => a == b && leadsWith pa s

/-- Python `s.endswith(pat)` on character lists. -/
def trailsWith (pat s : List Char) : Bool :=
  leadsWith pat.reverse s.reverse

/-- Python `pat in s` (substring containment) on character lists. -/
def hasSub (pat : List Char) : List Char → Bool
  | [] => leadsWith pat []
  | c :: rest => leadsWith pat (c :: rest) || hasSub pat rest

/-- Worker for `replaceAll`: scans `s` left to right; while `skip > 0` it
copies nothing and only consumes the characters of an occurrence already
replaced; at `skip = 0` it tests for an occurrence of `old` and on a match
emits `new` and arranges to skip the matched characters. Structural in `s`. -/
def raGo (old new : List Char) : Nat → List Char → List Char
  | _, [] => []
  | k + 1, _ :: rest => raGo old new k rest
  | 0, c :: rest =>
    if leadsWith old (c :: rest) then
      match old with
      | [] => c :: raGo old new 0 rest
      | _ :: os => new ++ raGo old new os.length rest
    else c :: raGo old new 0 rest

/-- Python `s.replace(old, new)` for non-empty `old`: every non-overlapping
occurrence, leftmost first, is replaced. (For `old = []` this is the
identity-shaped degenerate case, which the harness never uses.) -/
def replaceAll (old new s : List Char) : List Char :=
  raGo old new 0 s

/-- Python `s.replace(old, new, 1)`: only the first occurrence is replaced. -/
def replaceFirst (old new : List Char) : List Char → List Char
  | [] => []
  | c :: rest =>
    if leadsWith old (c :: rest) then
      match old with
      | [] => new ++ c :: rest
      | _ :: os => new ++ rest.drop os.length
    else c :: replaceFirst old new rest

/-- Python `s.split(sep)` for a one-character separator: always returns at
least one piece, and empty pieces are kept (`"".split` gives `[""]`). -/
def splitOnChar (sep : Char) : List Char → List (List Char)
  | [] => [[]]
  | c :: rest =>
    if c == sep then [] :: splitOnChar sep rest
    else
      match splitOnChar sep rest with
      | [] => [[c]]
      | piece :: pieces => (c :: piece) :: pieces

/-- Python `s.strip()`: remove leading and trailing whitespace. -/
def pyStrip (s : List Char) : List Char :=
  ((s.dropWhile Char.isWhitespace).reverse.dropWhile Char.isWhitespace).reverse

/-- Python `s.lower()` (the source only lowercases ASCII repository names). -/
def lowerL (s : List Char) : List Char :=
  s.map Char.toLower

/-! ### `image_uri.py` -/

/-- The hard-coded legacy instance id of `image_uri.py:16`. -/
def legacyUid : String :=
  "instance_element-hq__element-web-ec0f940ef0e8e3b61078f145f34dc40d1938e6c5-vnan"

/-- Line 12 of `image_uri.py`: `hsh = uid.replace("instance_", "")`. -/
def hshOf (uid : String) : List Char :=
  replaceAll "instance_".data [] uid.data

/-- Lines 14-27 of `image_uri.py`: the special-case overrides and the composition
`tag = f"{repo_base}.{repo_name_only}-{hsh}"`, before the length cut.
`repo_base` and `repo_name_only` are the two pieces of the slash split. -/
def rawTag (uid repo_name : String) (repo_base repo_name_only : List Char) :
    List Char :=
  let hsh := hshOf uid
  let rps :=
    if uid == legacyUid then
      ("element-web".data, hsh)
    else if hasSub "element-hq".data (lowerL repo_name.data) &&
            hasSub "element-web".data (lowerL repo_name.data) then
      ("element".data,
        if trailsWith "-vnan".data hsh then hsh.take (hsh.length - 5) else hsh)
    else if trailsWith "-vnan".data hsh then
      (repo_name_only, hsh.take (hsh.length - 5))
    else
      (repo_name_only, hsh)
  repo_base ++ '.' :: rps.1 ++ '-' :: rps.2

/-- Lines 28-29 of `image_uri.py`: `if len(tag) > 128: tag = tag[:128]`. -/
def finalTag (uid repo_name : String) (repo_base repo_name_only : List Char) :
    List Char :=
  let tag := rawTag uid repo_name repo_base repo_name_only
  if tag.length > 128 then tag.take 128 else tag

/-- Shallow embedding of `get_dockerhub_image_uri` (`image_uri.py:10-31`).
The Python unpacking `repo_base, repo_name_only = repo_name.lower().split("/")`
raises unless the split has exactly two pieces; that failure is `none`. -/
def get_dockerhub_image_uri (uid dockerhub_username repo_name : String) :
    Option String :=
  match splitOnChar '/' (lowerL repo_name.data) with
  | [repo_base, repo_name_only] =>
    some (dockerhub_username ++ "/sweap-images:" ++
      String.mk (finalTag uid repo_name repo_base repo_name_only))
  | _ => none

/-! ### `run_local_evaluation.py`: the entry script builder -/

/-- Python `"sep".join(pieces)` for one-character separators. -/
def joinWith (sep : Char) : List (List Char) → List Char
  | [] => []
  | [piece] => piece
  | piece :: pieces => piece ++ sep :: joinWith sep pieces

/-- The body of the inner loop of `run_local_evaluation.py:49-53`:
`line = line.strip()`, then when `line.startswith("ENV")` append
`line.replace("ENV", "export", 1)` to the accumulator. -/
def envLineStep (acc : List (List Char)) (line : List Char) :
    List (List Char) :=
  let line := pyStrip line
  if leadsWith "ENV".data line then
    acc ++ [replaceFirst "ENV".data "export".data line]
  else acc

/-- Lines 47-55 of `run_local_evaluation.py`: the loop that collects the
`ENV` lines of both dockerfiles. -/
def env_cmds (base_dockerfile instance_dockerfile : List Char) :
    List (List Char) :=
  [base_dockerfile, instance_dockerfile].foldl
    (fun acc dockerfile_content =>
      (splitOnChar '\n' dockerfile_content).foldl envLineStep acc)
    []

/-- Line 39 of `run_local_evaluation.py`:
`sample["before_repo_set_cmd"].strip().split("\n")[-1]`. -/
def before_repo_set_cmd_last (before_repo_set_cmd : List Char) : List Char :=
  (splitOnChar '\n' (pyStrip before_repo_set_cmd)).getLastD []

/-- The fields of an instance record that `create_entryscript` reads.
`selected_test_files_to_run` is stored serialized and decoded with Python
`eval`; the decoded sequence is taken as the input here. -/
structure Sample where
  base_commit : List Char
  before_repo_set_cmd : List Char
  selected_test_files_to_run : List (List Char)

/-- Shallow embedding of `create_entryscript`
(`run_local_evaluation.py:38-85`): the f-string template, flattened.
The base and instance dockerfile texts are the results of
`load_base_docker` / `instance_docker` (file content, or empty when the
file is absent) and are passed in here; `workspace_dir` is the directory
all fixed paths are joined onto. -/
def create_entryscript (sample : Sample)
    (base_dockerfile instance_dockerfile workspace_dir : List Char) :
    List Char :=
  let before_repo_set_cmd := before_repo_set_cmd_last sample.before_repo_set_cmd
  let selected := joinWith ',' sample.selected_test_files_to_run
  let envs := joinWith '\n' (env_cmds base_dockerfile instance_dockerfile)
  let patch_path := workspace_dir ++ "/patch.diff".data
  let run_script_path := workspace_dir ++ "/run_script.sh".data
  let parser_path := workspace_dir ++ "/parser.py".data
  let stdout_path := workspace_dir ++ "/stdout.log".data
  let stderr_path := workspace_dir ++ "/stderr.log".data
  let output_json_path := workspace_dir ++ "/output.json".data
  let patch_status_path := workspace_dir ++ "/patch_status.txt".data
  '\n' :: envs ++
  "\n# apply patch\ncd /app\ngit reset --hard ".data ++ sample.base_commit ++
  "\ngit checkout ".data ++ sample.base_commit ++
  "\ngit apply -v ".data ++ patch_path ++
  "\nif [ $? -eq 0 ]; then\n    echo \"PATCH_APPLY_SUCCESS\" > ".data ++
    patch_status_path ++
  "\nelse\n    echo \"PATCH_APPLY_FAILED\" > ".data ++ patch_status_path ++
  "\n    exit 1\nfi\n".data ++ before_repo_set_cmd ++
  "\n# run test\nbash ".data ++ run_script_path ++ " ".data ++ selected ++
  " > ".data ++ stdout_path ++ " 2> ".data ++ stderr_path ++
  "\n# run parsing script\npython ".data ++ parser_path ++ " ".data ++
  stdout_path ++ " ".data ++ stderr_path ++ " ".data ++ output_json_path ++
  "\n".data

/-- The entry script as a sequence of shell commands, one constructor per
line block of the template of `create_entryscript`. `sentinelGate` is the
five-line `if [ $? -eq 0 ]` block that writes the sentinel and, on
failure, runs `exit 1`. -/
inductive ScriptStep where
  | envBlock (cmds : List (List Char))
  | comment (text : List Char)
  | cdApp
  | gitResetHard (commit : List Char)
  | gitCheckout (commit : List Char)
  | gitApply (patch_path : List Char)
  | sentinelGate (patch_status_path : List Char)
  | setupCmd (cmd : List Char)
  | runTests (run_script_path selected stdout_path stderr_path : List Char)
  | runParser (parser_path stdout_path stderr_path output_json_path : List Char)
deriving DecidableEq

/-- The shell text of one `ScriptStep`, exactly as the template emits it. -/
def renderStep : ScriptStep → List Char
  | .envBlock cmds => joinWith '\n' cmds
  | .comment text => "# ".data ++ text
  | .cdApp => "cd /app".data
  | .gitResetHard commit => "git reset --hard ".data ++ commit
  | .gitCheckout commit => "git checkout ".data ++ commit
  | .gitApply patch_path => "git apply -v ".data ++ patch_path
  | .sentinelGate patch_status_path =>
    "if [ $? -eq 0 ]; then\n    echo \"PATCH_APPLY_SUCCESS\" > ".data ++
      patch_status_path ++
    "\nelse\n    echo \"PATCH_APPLY_FAILED\" > ".data ++ patch_status_path ++
    "\n    exit 1\nfi".data
  | .setupCmd cmd => cmd
  | .runTests run_script_path selected stdout_path stderr_path =>
    "bash ".data ++ run_script_path ++ " ".data ++ selected ++
    " > ".data ++ stdout_path ++ " 2> ".data ++ stderr_path
  | .runParser parser_path stdout_path stderr_path output_json_path =>
    "python ".data ++ parser_path ++ " ".data ++ stdout_path ++ " ".data ++
    stderr_path ++ " ".data ++ output_json_path

/-- Renders a step sequence the way the template lays it out: a leading
newline, one line block per step, and a trailing newline. -/
def renderScript (steps : List ScriptStep) : List Char :=
  '\n' :: joinWith '\n' (steps.map renderStep) ++ "\n".data

/-- The entry script of `create_entryscript`, structured: the same
instance data poured into `ScriptStep`s in template order. -/
def entryScriptSteps (sample : Sample)
    (base_dockerfile instance_dockerfile workspace_dir : List Char) :
    List ScriptStep :=
  [.envBlock (env_cmds base_dockerfile instance_dockerfile),
   .comment "apply patch".data,
   .cdApp,
   .gitResetHard sample.base_commit,
   .gitCheckout sample.base_commit,
   .gitApply (workspace_dir ++ "/patch.diff".data),
   .sentinelGate (workspace_dir ++ "/patch_status.txt".data),
   .setupCmd (before_repo_set_cmd_last sample.before_repo_set_cmd),
   .comment "run test".data,
   .runTests (workspace_dir ++ "/run_script.sh".data)
     (joinWith ',' sample.selected_test_files_to_run)
     (workspace_dir ++ "/stdout.log".data)
     (workspace_dir ++ "/stderr.log".data),
   .comment "run parsing script".data,
   .runParser (workspace_dir ++ "/parser.py".data)
     (workspace_dir ++ "/stdout.log".data)
     (workspace_dir ++ "/stderr.log".data)
     (workspace_dir ++ "/output.json".data)]

/-- An observable event of a script run: a step was executed, or a file
was written. -/
inductive Ev where
  | ran (s : ScriptStep)
  | wrote (path content : List Char)
deriving DecidableEq

/-- Shell semantics for the step sequences at hand. The `Nat` argument is
`$?`, the exit status of the previous command; `applyOk` is whether
`git apply` succeeds. `sentinelGate` branches on `$?`: on zero it writes
the success sentinel and continues, otherwise it writes the failure
sentinel and stops the script with exit status 1. Every other command is
opaque and (as the happy path of the harness assumes) sets `$?` to 0. The
result is the event trace and the script's exit status. -/
def execSteps (applyOk : Bool) : Nat → List ScriptStep → List Ev × Nat
  | st, [] => ([], st)
  | _, .gitApply p :: rest =>
    let (tr, code) := execSteps applyOk (if applyOk then 0 else 1) rest
    (.ran (.gitApply p) :: tr, code)
  | st, .sentinelGate sp :: rest =>
    if st == 0 then
      let (tr, code) := execSteps applyOk 0 rest
      (.ran (.sentinelGate sp) :: .wrote sp "PATCH_APPLY_SUCCESS".data :: tr,
        code)
    else
      ([.ran (.sentinelGate sp), .wrote sp "PATCH_APPLY_FAILED".data], 1)
  | _, step :: rest =>
    let (tr, code) := execSteps applyOk 0 rest
    (.ran step :: tr, code)

/-! ### `run_local_evaluation.py`: output collection -/

/-- One entry of the parser's `tests` list, with the two fields `main`
reads (`run_local_evaluation.py:241`). -/
structure TestEntry where
  name : String
  status : String
deriving DecidableEq

/-- The parsed content of a well-formed `output.json`. `json.load` yields
a JSON object and `dict.update` copies every key it holds, so each key
that can affect the fields tracked here (`patch_successfully_applied`,
`tests`, `resolved`) is modelled as present (`some`) or absent (`none`).
Keys outside these three are copied too but touch no tracked field. -/
structure ParserOutput where
  patch_successfully_applied : Option Bool
  tests : Option (List TestEntry)
  resolved : Option Bool
deriving DecidableEq

/-- The state of the `output.json` file in a workspace: missing, present
but syntactically invalid JSON, or valid. -/
inductive OutputJson where
  | absent
  | malformed
  | valid (p : ParserOutput)
deriving DecidableEq

/-- The workspace files `collect_outputs_local` reads: the
`patch_status.txt` sentinel (`none` when the file does not exist) and
`output.json`. -/
structure Workspace where
  patch_status : Option (List Char)
  output_json : OutputJson
deriving DecidableEq

/-- The merged record `collect_outputs_local` returns and writes verbatim
to `{output_dir}/{uid}/output.json`. The `resolved` field records whether
the parser JSON carried a `resolved` key, which `dict.update` copies into
the record. -/
structure EvalOutput where
  patch_successfully_applied : Bool
  tests : List TestEntry
  resolved : Option Bool
deriving DecidableEq

/-- Lines 126-130 of `run_local_evaluation.py`: `patch_success` is true
exactly when `patch_status.txt` exists and its content contains the
substring `"PATCH_APPLY_SUCCESS"`. -/
def sentinelApplied (w : Workspace) : Bool :=
  match w.patch_status with
  | some content => hasSub "PATCH_APPLY_SUCCESS".data content
  | none => false

/-- The `resolved` key the parser's JSON would contribute, if any. -/
def parserResolved (w : Workspace) : Option Bool :=
  match w.output_json with
  | .valid p => p.resolved
  | _ => none

/-- Shallow embedding of `collect_outputs_local`
(`run_local_evaluation.py:120-145`): the base record
`{"patch_successfully_applied": patch_success, "tests": []}`, then
`output.update(json.load(f_in))` when `output.json` exists and parses; a
`json.JSONDecodeError` is swallowed (`pass`). The subsequent `json.dump`
persists exactly the returned record. -/
def collect_outputs_local (w : Workspace) : EvalOutput :=
  let patch_success := sentinelApplied w
  let base : EvalOutput :=
    { patch_successfully_applied := patch_success, tests := [], resolved := none }
  match w.output_json with
  | .absent => base
  | .malformed => base
  | .valid p =>
    { patch_successfully_applied := p.patch_successfully_applied.getD patch_success
      tests := p.tests.getD []
      resolved := p.resolved }

/-! ### `run_local_evaluation.py`: the per-record report of `main` -/

/-- The tracked fields of the per-instance `eval_results` record
(`run_local_evaluation.py:216-246`). `tests` is among the fields
`update(output)` copies from the evaluation output into the report. -/
structure Report where
  patch_is_None : Bool
  patch_exists : Bool
  patch_successfully_applied : Bool
  resolved : Bool
  tests : List TestEntry
deriving DecidableEq

/-- Line 240-242 of `run_local_evaluation.py`: the names of the parsed
tests whose status equals `"PASSED"` (a Python set comprehension; the
list here carries the same membership). -/
def passedNames (tests : List TestEntry) : List String :=
  (tests.filter (fun t => t.status == "PASSED")).map (fun t => t.name)

/-- Shallow embedding of the report construction of `main`
(`run_local_evaluation.py:216-246`) for one patch record whose
`instance_id` is present in the sample index. `model_patch` is the
record's patch (`none` is JSON null), `evalOut` is what `eval_internal`
returned (`none` when it caught an exception and returned `None`), and
`fail_to_pass` / `pass_to_pass` are the instance's decoded name
sequences. The Python set union and subset test
`(f2p | p2p) <= passed_tests` is membership of every name of either
sequence in `passedNames`. -/
def mkReport (model_patch : Option String) (evalOut : Option EvalOutput)
    (fail_to_pass pass_to_pass : List String) : Report :=
  let base : Report :=
    { patch_is_None := false, patch_exists := false
      patch_successfully_applied := false, resolved := false, tests := [] }
  match model_patch with
  | none => { base with patch_is_None := true }
  | some _ =>
    let r := { base with patch_exists := true }
    match evalOut with
    | none => r
    | some out =>
      let r := { r with
        patch_successfully_applied := out.patch_successfully_applied
        tests := out.tests
        resolved := out.resolved.getD r.resolved }
      if out.patch_successfully_applied then
        { r with resolved := ((fail_to_pass ++ pass_to_pass).all
            (fun t => (passedNames out.tests).contains t)) }
      else r

/-! ### `run_local_evaluation.py`: workspace preparation and its caller -/

/-- Shallow embedding of `prepare_run` (`run_local_evaluation.py:88-96`)
over a filesystem modelled as the list of existing paths
(`os.makedirs(..., exist_ok=True)` adds a path, `os.path.exists` is
membership, `os.path.join` is `/`-joining). The result is the Python
triple `(None, output_path, workspace_dir)` — whose first component is
the literal `None` in both branches — paired with the filesystem after
the call. -/
def prepare_run (uid output_dir : String) (redo : Bool) (fs : List String) :
    (Option Unit × String × String) × List String :=
  let uid_dir := output_dir ++ "/" ++ uid
  let fs := if fs.contains uid_dir then fs else uid_dir :: fs
  let output_path := uid_dir ++ "/output.json"
  if !redo && fs.contains output_path then
    ((none, output_path, uid_dir ++ "/workspace"), fs)
  else
    let workspace_dir := uid_dir ++ "/workspace"
    ((none, output_path, workspace_dir),
      if fs.contains workspace_dir then fs else workspace_dir :: fs)

/-- An observable action of `eval_internal` on the workspace. -/
inductive Action where
  | wroteFile (path : String)
  | ranScript (path : String)
  | collected
deriving DecidableEq

/-- The workspace actions of `eval_internal`
(`run_local_evaluation.py:148-175`) on its non-raising path: it discards
the first component of `prepare_run`'s result, writes the four workspace
files of `assemble_workspace_files` in insertion order, always executes
`entryscript.sh` via `subprocess.run`, and collects the outputs. No
branch consults a cache condition. -/
def eval_internal_actions (uid output_dir : String) (redo : Bool)
    (fs : List String) : List Action :=
  let pr := prepare_run uid output_dir redo fs
  let workspace_dir := pr.1.2.2
  [.wroteFile (workspace_dir ++ "/patch.diff"),
   .wroteFile (workspace_dir ++ "/run_script.sh"),
   .wroteFile (workspace_dir ++ "/parser.py"),
   .wroteFile (workspace_dir ++ "/entryscript.sh"),
   .ranScript (workspace_dir ++ "/entryscript.sh"),
   .collected]

/-! ### Helper lemmas -/

theorem leadsWith_append (s t : List Char) : leadsWith s (s ++ t) = true := by
  induction s with
  | nil => rfl
  | cons c cs ih => simp [leadsWith, ih]

theorem raGo_skip (old newL : List Char) (skip t : List Char) :
    raGo old newL skip.length (skip ++ t) = raGo old newL 0 t := by
  induction skip with
  | nil => rfl
  | cons c cs ih => simpa [raGo] using ih

theorem raGo_of_not_hasSub (old newL : List Char) :
    ∀ s, hasSub old s = false → raGo old newL 0 s = s := by
  intro s
  induction s with
  | nil => intro _; rfl
  | cons c rest ih =>
    intro h
    simp only [hasSub, Bool.or_eq_false_iff] at h
    simp [raGo, h.1, ih h.2]

theorem raGo_match_head (a : Char) (os rest newL : List Char) :
    raGo (a :: os) newL 0 ((a :: os) ++ rest) =
      newL ++ raGo (a :: os) newL 0 rest := by
  have h1 : leadsWith (a :: os) (a :: (os ++ rest)) = true := by
    simpa using leadsWith_append (a :: os) rest
  rw [List.cons_append, raGo, h1]
  simp [raGo_skip (a :: os) newL os rest]

theorem splitOnChar_length (sep : Char) (s : List Char) :
    (splitOnChar sep s).length = s.count sep + 1 := by
  induction s with
  | nil => rfl
  | cons c rest ih =>
    by_cases h : c == sep
    · simp [splitOnChar, h, List.count_cons, ih]
    · rcases hs : splitOnChar sep rest with _ | ⟨piece, pieces⟩
      · rw [hs] at ih; simp at ih
      · rw [hs] at ih
        simp only [splitOnChar, Bool.not_eq_true] at *
        simp [h, hs, List.count_cons, ← ih]

theorem toLower_eq_slash_iff (c : Char) : c.toLower = '/' ↔ c = '/' := by
  constructor
  · intro h
    by_contra hne
    simp only [Char.toLower] at h
    split at h
    · rename_i hcond
      have hvalid : (c.toNat + 32).isValidChar := by
        left
        omega
      have h47 : (Char.ofNat (c.toNat + 32)).toNat = c.toNat + 32 := by
        rw [Char.ofNat, dif_pos hvalid]
        rfl
      have := congrArg Char.toNat h
      rw [h47] at this
      have hslash : ('/').toNat = 47 := by decide
      rw [hslash] at this
      omega
    · exact hne h
  · intro h
    subst h
    decide

theorem toLower_beq_slash (c : Char) : (c.toLower == '/') = (c == '/') := by
  by_cases h : c = '/'
  · subst h; decide
  · have h2 : c.toLower ≠ '/' := fun hh => h ((toLower_eq_slash_iff c).mp hh)
    simp [h, h2]

theorem lowerL_count_slash (s : List Char) :
    (lowerL s).count '/' = s.count '/' := by
  induction s with
  | nil => rfl
  | cons c rest ih =>
    simp only [lowerL, List.map_cons] at ih ⊢
    simp [List.count_cons, toLower_beq_slash, ih]

/-! ### Claims about `image_uri.py` -/

/-- C6: when `repo_name` contains exactly one `/`, the tag component of
the returned image reference never exceeds 128 characters, and when the
composed tag is longer than 128 characters the result is exactly its
first 128 characters — a structural prefix cut with no further
processing. -/
theorem tag_length_bounded (uid user repo_name : String)
    (h : repo_name.data.count '/' = 1) :
    ∃ repo_base repo_name_only,
      splitOnChar '/' (lowerL repo_name.data) = [repo_base, repo_name_only] ∧
      get_dockerhub_image_uri uid user repo_name =
        some (user ++ "/sweap-images:" ++
          String.mk (finalTag uid repo_name repo_base repo_name_only)) ∧
      (finalTag uid repo_name repo_base repo_name_only).length ≤ 128 ∧
      (128 < (rawTag uid repo_name repo_base repo_name_only).length →
        finalTag uid repo_name repo_base repo_name_only =
          (rawTag uid repo_name repo_base repo_name_only).take 128) := by
  have hlen : (splitOnChar '/' (lowerL repo_name.data)).length = 2 := by
    rw [splitOnChar_length, lowerL_count_slash, h]
  rcases hs : splitOnChar '/' (lowerL repo_name.data) with _ | ⟨a, _ | ⟨b, _ | ⟨x, xs⟩⟩⟩ <;>
    rw [hs] at hlen <;> simp at hlen
  refine ⟨a, b, rfl, ?_, ?_, ?_⟩
  · unfold get_dockerhub_image_uri
    rw [hs]
  · by_cases hgt : 128 < (rawTag uid repo_name a b).length
    · simp [finalTag, hgt]
    · simp [finalTag, hgt]
      omega
  · intro hgt
    simp [finalTag, hgt]

/-- Witness for C6 at a concrete input. -/
theorem tag_length_bounded_witness :
    "Org/Repo".data.count '/' = 1 ∧
    ∃ repo_base repo_name_only,
      splitOnChar '/' (lowerL "Org/Repo".data) = [repo_base, repo_name_only] ∧
      get_dockerhub_image_uri "instance_x" "alice" "Org/Repo" =
        some ("alice" ++ "/sweap-images:" ++
          String.mk (finalTag "instance_x" "Org/Repo" repo_base repo_name_only)) ∧
      (finalTag "instance_x" "Org/Repo" repo_base repo_name_only).length ≤ 128 ∧
      (128 < (rawTag "instance_x" "Org/Repo" repo_base repo_name_only).length →
        finalTag "instance_x" "Org/Repo" repo_base repo_name_only =
          (rawTag "instance_x" "Org/Repo" repo_base repo_name_only).take 128) :=
  ⟨by decide, tag_length_bounded "instance_x" "alice" "Org/Repo" (by decide)⟩

/-- C7 counterexample: the spec's scenario A expects
`alice/sweap-images:org.repo-abc123-v1`, but the code composes the tag as
`{org}.{repo}-{hash}` where the hash is the whole identifier with
`instance_` removed, i.e. `repo-abc123-v1`, so the repository name shows
up twice and the returned reference differs from the spec's value. -/
theorem scenario_a_spec_value_wrong :
    get_dockerhub_image_uri "instance_repo-abc123-v1" "alice" "Org/Repo" ≠
      some "alice/sweap-images:org.repo-abc123-v1" := by
  decide

/-- C7 amended: for instance id `instance_repo-abc123-v1`, repo name
`Org/Repo` and user `alice`, the generator returns exactly
`alice/sweap-images:org.repo-repo-abc123-v1`. -/
theorem scenario_a_actual_value :
    get_dockerhub_image_uri "instance_repo-abc123-v1" "alice" "Org/Repo" =
      some "alice/sweap-images:org.repo-repo-abc123-v1" := by
  decide

/-- C8 counterexample: in `xinstance_y` the substring `instance_` does not
occur as a leading prefix, so by the claim the hash part should be left
intact; the code's `uid.replace("instance_", "")` removes it anyway. -/
theorem hash_part_nonprefix_removed :
    hshOf "xinstance_y" ≠ "xinstance_y".data := by
  decide

/-- C8 amended: the hash part is the instance id with every leftmost
non-overlapping occurrence of `instance_` removed — a leading prefix is
stripped and removal continues through the remainder, so when the
remainder contains no further occurrence the hash part is exactly the
prefix-stripped remainder. -/
theorem hash_part_strips_all_occurrences (rest : List Char) :
    hshOf (String.mk ("instance_".data ++ rest)) =
      replaceAll "instance_".data [] rest ∧
    (hasSub "instance_".data rest = false →
      hshOf (String.mk ("instance_".data ++ rest)) = rest) := by
  have key : hshOf (String.mk ("instance_".data ++ rest)) =
      replaceAll "instance_".data [] rest := by
    show raGo "instance_".data [] 0 ("instance_".data ++ rest) =
      raGo "instance_".data [] 0 rest
    simpa using raGo_match_head 'i' "nstance_".data rest []
  exact ⟨key, fun h => key.trans (raGo_of_not_hasSub _ _ rest h)⟩

/-- Witness for C8 at a concrete input. -/
theorem hash_part_strips_all_occurrences_witness :
    hasSub "instance_".data "x".data = false ∧
    hshOf (String.mk ("instance_".data ++ "x".data)) = "x".data :=
  ⟨by decide, (hash_part_strips_all_occurrences "x".data).2 (by decide)⟩

/-! ### Claims about the entry script builder -/

/-- The exported-environment block exactly as the claim words it: the
lines of the base dockerfile then the instance dockerfile that begin with
the literal keyword `ENV`, each rewritten by replacing that keyword with
`export` and preserving the rest of the line verbatim. -/
def envBlockClaim (base_dockerfile instance_dockerfile : List Char) :
    List (List Char) :=
  (splitOnChar '\n' base_dockerfile ++ splitOnChar '\n' instance_dockerfile).filterMap
    (fun line =>
      if leadsWith "ENV".data line then
        some ("export".data ++ line.drop 3)
      else none)

/-- The exported-environment block as amended: every line is first
stripped of leading and trailing whitespace, and the lines that then
begin with `ENV` are rewritten by replacing that leading keyword with
`export`, preserving the rest of the stripped line. -/
def envBlockStripped (base_dockerfile instance_dockerfile : List Char) :
    List (List Char) :=
  (splitOnChar '\n' base_dockerfile ++ splitOnChar '\n' instance_dockerfile).filterMap
    (fun line =>
      if leadsWith "ENV".data (pyStrip line) then
        some ("export".data ++ (pyStrip line).drop 3)
      else none)

theorem replaceFirst_of_leadsWith (a : Char) (os newL s : List Char)
    (h : leadsWith (a :: os) s = true) :
    replaceFirst (a :: os) newL s = newL ++ s.drop (os.length + 1) := by
  cases s with
  | nil => simp [leadsWith] at h
  | cons c rest => simp [replaceFirst, h]

theorem foldl_envLineStep (lines : List (List Char))
    (acc : List (List Char)) :
    lines.foldl envLineStep acc =
      acc ++ lines.filterMap (fun line =>
        if leadsWith "ENV".data (pyStrip line) then
          some ("export".data ++ (pyStrip line).drop 3)
        else none) := by
  induction lines generalizing acc with
  | nil => simp
  | cons l ls ih =>
    rw [List.foldl_cons, List.filterMap_cons, ih]
    by_cases h : leadsWith "ENV".data (pyStrip l) = true
    · have hrw : replaceFirst "ENV".data "export".data (pyStrip l) =
          "export".data ++ (pyStrip l).drop 3 := by
        simpa using replaceFirst_of_leadsWith 'E' "NV".data "export".data
          (pyStrip l) (by simpa using h)
      simp [envLineStep, h, hrw]
    · simp [envLineStep, h]

/-- C9 counterexample: a dockerfile line with leading whitespace does not
begin with `ENV`, so by the claim it contributes nothing, but the code
strips each line before testing it and exports such a line anyway. -/
theorem env_block_strip_matters :
    env_cmds "  ENV A=1".data [] ≠ envBlockClaim "  ENV A=1".data [] := by
  decide

/-- C9 amended: the exported-environment block consists exactly of the
lines of the base dockerfile and then the instance dockerfile, in file
order, that — after being stripped of leading and trailing whitespace —
begin with the literal keyword `ENV`, each rewritten by replacing that
leading keyword with `export` while preserving the rest of the stripped
line, one rewritten line per output line. -/
theorem env_cmds_characterization
    (base_dockerfile instance_dockerfile : List Char) :
    env_cmds base_dockerfile instance_dockerfile =
      envBlockStripped base_dockerfile instance_dockerfile := by
  unfold env_cmds envBlockStripped
  rw [List.foldl_cons, List.foldl_cons, List.foldl_nil,
    foldl_envLineStep, foldl_envLineStep, List.filterMap_append]
  simp

theorem decompose_apply_block :
    "\n# apply patch\ncd /app\ngit reset --hard ".data =
      '\n' :: ("# ".data ++ ("apply patch".data ++
        ('\n' :: ("cd /app".data ++ ('\n' :: "git reset --hard ".data))))) := by
  decide

theorem decompose_checkout :
    "\ngit checkout ".data = '\n' :: "git checkout ".data := by
  decide

theorem decompose_apply :
    "\ngit apply -v ".data = '\n' :: "git apply -v ".data := by
  decide

theorem decompose_if_block :
    ("\nif [ $? -eq 0 ]; then\n    echo \"PATCH_APPLY_SUCCESS\" > ").data =
      '\n' ::
        ("if [ $? -eq 0 ]; then\n    echo \"PATCH_APPLY_SUCCESS\" > ").data := by
  decide

theorem decompose_fi_block :
    "\n    exit 1\nfi\n".data = "\n    exit 1\nfi".data ++ ['\n'] := by
  decide

theorem decompose_run_test :
    "\n# run test\nbash ".data =
      '\n' :: ("# ".data ++ ("run test".data ++ ('\n' :: "bash ".data))) := by
  decide

theorem decompose_parse_step :
    "\n# run parsing script\npython ".data =
      '\n' :: ("# ".data ++
        ("run parsing script".data ++ ('\n' :: "python ".data))) := by
  decide

set_option maxRecDepth 4000 in
/-- C4: the structured entry script renders to exactly the text
`create_entryscript` emits, and under the shell semantics the patch-apply
step precedes the setup, test-run and parser steps: with a failing
`git apply` the run executes only the environment block, the comments and
git commands up to `git apply`, and the sentinel gate, which writes the
failure sentinel and stops the script with exit status 1 — the setup
line, the run-script invocation and the parser invocation appear only in
the successful-apply trace, after the apply step. -/
theorem entryscript_patch_gating (sample : Sample)
    (base_dockerfile instance_dockerfile workspace_dir : List Char) :
    renderScript (entryScriptSteps sample base_dockerfile instance_dockerfile
        workspace_dir) =
      create_entryscript sample base_dockerfile instance_dockerfile
        workspace_dir
    ∧ execSteps false 0 (entryScriptSteps sample base_dockerfile
        instance_dockerfile workspace_dir) =
      ([.ran (.envBlock (env_cmds base_dockerfile instance_dockerfile)),
        .ran (.comment "apply patch".data),
        .ran .cdApp,
        .ran (.gitResetHard sample.base_commit),
        .ran (.gitCheckout sample.base_commit),
        .ran (.gitApply (workspace_dir ++ "/patch.diff".data)),
        .ran (.sentinelGate (workspace_dir ++ "/patch_status.txt".data)),
        .wrote (workspace_dir ++ "/patch_status.txt".data)
          "PATCH_APPLY_FAILED".data], 1)
    ∧ execSteps true 0 (entryScriptSteps sample base_dockerfile
        instance_dockerfile workspace_dir) =
      ([.ran (.envBlock (env_cmds base_dockerfile instance_dockerfile)),
        .ran (.comment "apply patch".data),
        .ran .cdApp,
        .ran (.gitResetHard sample.base_commit),
        .ran (.gitCheckout sample.base_commit),
        .ran (.gitApply (workspace_dir ++ "/patch.diff".data)),
        .ran (.sentinelGate (workspace_dir ++ "/patch_status.txt".data)),
        .wrote (workspace_dir ++ "/patch_status.txt".data)
          "PATCH_APPLY_SUCCESS".data,
        .ran (.setupCmd (before_repo_set_cmd_last sample.before_repo_set_cmd)),
        .ran (.comment "run test".data),
        .ran (.runTests (workspace_dir ++ "/run_script.sh".data)
          (joinWith ',' sample.selected_test_files_to_run)
          (workspace_dir ++ "/stdout.log".data)
          (workspace_dir ++ "/stderr.log".data)),
        .ran (.comment "run parsing script".data),
        .ran (.runParser (workspace_dir ++ "/parser.py".data)
          (workspace_dir ++ "/stdout.log".data)
          (workspace_dir ++ "/stderr.log".data)
          (workspace_dir ++ "/output.json".data))], 0) := by
  refine ⟨?_, rfl, rfl⟩
  simp only [renderScript, entryScriptSteps, create_entryscript, renderStep,
    List.map_cons, List.map_nil, joinWith, decompose_apply_block,
    decompose_checkout, decompose_apply, decompose_if_block,
    decompose_fi_block, decompose_run_test, decompose_parse_step,
    List.cons_append, List.append_assoc, List.nil_append, List.append_nil]

/-! ### Claims about output collection -/

theorem collect_resolved_eq (w : Workspace) :
    (collect_outputs_local w).resolved = parserResolved w := by
  cases h : w.output_json <;> simp [collect_outputs_local, parserResolved, h]

/-- C3 counterexample: a workspace with no sentinel file whose valid
`output.json` carries a `patch_successfully_applied` key. The claim says
the sentinel alone decides the field, so it should be `false`; the code's
`output.update(json.load(f_in))` lets the parser JSON override it to
`true`. -/
theorem sentinel_not_sole_source :
    (collect_outputs_local
        ⟨none, .valid ⟨some true, none, none⟩⟩).patch_successfully_applied ≠
      sentinelApplied ⟨none, .valid ⟨some true, none, none⟩⟩ := by
  decide

/-- C3 amended: the sentinel decides `patch_successfully_applied` — true
exactly when `patch_status.txt` exists and contains the substring
`PATCH_APPLY_SUCCESS`, absence giving `false` rather than an error —
except that a valid `output.json` carrying a `patch_successfully_applied`
key overrides the sentinel-derived value, because the parser JSON is
merged over the base record. -/
theorem collect_applied_characterization (w : Workspace) :
    ((collect_outputs_local w).patch_successfully_applied =
      match w.output_json with
      | .valid p => p.patch_successfully_applied.getD (sentinelApplied w)
      | _ => sentinelApplied w)
    ∧ (w.patch_status = none → sentinelApplied w = false)
    ∧ (∀ content, w.patch_status = some content →
        sentinelApplied w = hasSub "PATCH_APPLY_SUCCESS".data content) := by
  refine ⟨?_, ?_, ?_⟩
  · cases h : w.output_json <;> simp [collect_outputs_local, h]
  · intro h
    simp [sentinelApplied, h]
  · intro content h
    simp [sentinelApplied, h]

/-- Witness for C3's amended characterization at concrete workspaces. -/
theorem collect_applied_characterization_witness :
    sentinelApplied ⟨none, .absent⟩ = false ∧
    sentinelApplied ⟨some "PATCH_APPLY_FAILED".data, .absent⟩ =
      hasSub "PATCH_APPLY_SUCCESS".data "PATCH_APPLY_FAILED".data :=
  ⟨(collect_applied_characterization ⟨none, .absent⟩).2.1 rfl,
   (collect_applied_characterization
      ⟨some "PATCH_APPLY_FAILED".data, .absent⟩).2.2 _ rfl⟩

/-- C5: when `output.json` exists but holds invalid JSON, collection does
not raise and returns (and persists) the base record: the
sentinel-derived `patch_successfully_applied` with an empty test list
(and no `resolved` key). -/
theorem collect_malformed_json (patch_status : Option (List Char)) :
    collect_outputs_local ⟨patch_status, .malformed⟩ =
      { patch_successfully_applied :=
          sentinelApplied ⟨patch_status, .malformed⟩
        tests := []
        resolved := none } :=
  rfl

/-! ### Claims about the resolution verdict of `main` -/

/-- The `resolved` key, if any, that the parser JSON of the optional
evaluation output would contribute. -/
def parserResolvedOpt (w? : Option Workspace) : Option Bool :=
  w?.bind parserResolved

/-- C1 counterexample: a record whose patch applies nothing — no sentinel
file, so `patch_successfully_applied` is false — but whose valid
`output.json` carries `resolved: true`. `dict.update` copies that key
into the report and, because the patch did not apply, line 246 never
overwrites it: the report says `resolved = true` with
`patch_successfully_applied = false`, which the claim rules out. -/
theorem resolved_true_without_apply :
    (mkReport (some "p")
        (some (collect_outputs_local ⟨none, .valid ⟨none, none, some true⟩⟩))
        [] []).resolved = true
    ∧ (mkReport (some "p")
        (some (collect_outputs_local ⟨none, .valid ⟨none, none, some true⟩⟩))
        [] []).patch_successfully_applied = false := by
  decide

/-- C1 amended: for every record with a known instance id and a non-null
patch, provided the parser's `output.json` does not itself carry a
`resolved` key (which `dict.update` would copy into the report), the
report's `resolved` is true iff `patch_successfully_applied` is true and
every name in the union of the decoded `fail_to_pass` and `pass_to_pass`
sequences is among the names of parsed tests whose status is
`"PASSED"`. -/
theorem resolved_iff (patch : String) (w? : Option Workspace)
    (fail_to_pass pass_to_pass : List String)
    (hclean : parserResolvedOpt w? = none) :
    (mkReport (some patch) (w?.map collect_outputs_local)
        fail_to_pass pass_to_pass).resolved = true ↔
      ((mkReport (some patch) (w?.map collect_outputs_local)
          fail_to_pass pass_to_pass).patch_successfully_applied = true ∧
        ∀ t ∈ fail_to_pass ++ pass_to_pass,
          t ∈ passedNames (mkReport (some patch) (w?.map collect_outputs_local)
            fail_to_pass pass_to_pass).tests) := by
  cases w? with
  | none => simp [mkReport]
  | some w =>
    have hres : (collect_outputs_local w).resolved = none := by
      rw [collect_resolved_eq]
      simpa [parserResolvedOpt] using hclean
    cases happ : (collect_outputs_local w).patch_successfully_applied with
    | false => simp [mkReport, happ, hres]
    | true =>
      simp [mkReport, happ, hres, List.all_eq_true]
      constructor
      · rintro ⟨h1, h2⟩ t ht
        rcases ht with ht | ht
        · exact h1 t ht
        · exact h2 t ht
      · intro h
        exact ⟨fun t ht => h t (Or.inl ht), fun t ht => h t (Or.inr ht)⟩

/-- Witness for C1's amended equivalence at a concrete record. -/
theorem resolved_iff_witness :
    parserResolvedOpt
        (some ⟨some "PATCH_APPLY_SUCCESS".data,
          .valid ⟨none, some [⟨"t1", "PASSED"⟩], none⟩⟩) = none ∧
    ((mkReport (some "p")
        ((some ⟨some "PATCH_APPLY_SUCCESS".data,
          .valid ⟨none, some [⟨"t1", "PASSED"⟩], none⟩⟩ :
            Option Workspace).map collect_outputs_local)
        ["t1"] []).resolved = true ↔
      ((mkReport (some "p")
          ((some ⟨some "PATCH_APPLY_SUCCESS".data,
            .valid ⟨none, some [⟨"t1", "PASSED"⟩], none⟩⟩ :
              Option Workspace).map collect_outputs_local)
          ["t1"] []).patch_successfully_applied = true ∧
        ∀ t ∈ ["t1"] ++ ([] : List String),
          t ∈ passedNames (mkReport (some "p")
            ((some ⟨some "PATCH_APPLY_SUCCESS".data,
              .valid ⟨none, some [⟨"t1", "PASSED"⟩], none⟩⟩ :
                Option Workspace).map collect_outputs_local)
            ["t1"] []).tests)) :=
  ⟨rfl, resolved_iff "p" _ ["t1"] [] rfl⟩

/-- C10: when the patch applied successfully and both decoded name
sequences are empty, the subset condition holds vacuously and the report
is resolved, whatever the parsed test list says — including when it is
empty. -/
theorem resolved_vacuously_true (patch : String) (out : EvalOutput)
    (h : out.patch_successfully_applied = true) :
    (mkReport (some patch) (some out) [] []).resolved = true := by
  simp [mkReport, h]

/-- Witness for C10 at a concrete output that even reports a failing
test. -/
theorem resolved_vacuously_true_witness :
    (⟨true, [⟨"t", "FAILED"⟩], none⟩ :
        EvalOutput).patch_successfully_applied = true ∧
    (mkReport (some "p") (some ⟨true, [⟨"t", "FAILED"⟩], none⟩)
        [] []).resolved = true :=
  ⟨rfl, resolved_vacuously_true "p" _ rfl⟩

/-! ### Claim about workspace preparation caching -/

/-- C2 (code divergence): `prepare_run` returns the same triple whatever
`redo` and the filesystem contents are — its first component is the
literal `None` in both branches, so a caller cannot distinguish a cache
hit — and `eval_internal` ignores that component anyway: it rewrites the
four workspace files and re-runs the entry script unconditionally, even
when `redo` is false and `output.json` already exists. -/
theorem prepare_run_cache_hit_ineffective (uid output_dir : String)
    (redo : Bool) (fs : List String) :
    (prepare_run uid output_dir redo fs).1 =
      (none, output_dir ++ "/" ++ uid ++ "/output.json",
        output_dir ++ "/" ++ uid ++ "/workspace")
    ∧ eval_internal_actions uid output_dir redo fs =
      [.wroteFile (output_dir ++ "/" ++ uid ++ "/workspace" ++ "/patch.diff"),
       .wroteFile (output_dir ++ "/" ++ uid ++ "/workspace" ++ "/run_script.sh"),
       .wroteFile (output_dir ++ "/" ++ uid ++ "/workspace" ++ "/parser.py"),
       .wroteFile (output_dir ++ "/" ++ uid ++ "/workspace" ++ "/entryscript.sh"),
       .ranScript (output_dir ++ "/" ++ uid ++ "/workspace" ++ "/entryscript.sh"),
       .collected] := by
  have h1 : (prepare_run uid output_dir redo fs).1 =
      (none, output_dir ++ "/" ++ uid ++ "/output.json",
        output_dir ++ "/" ++ uid ++ "/workspace") := by
    unfold prepare_run
    dsimp only
    split <;> split <;> rfl
  refine ⟨h1, ?_⟩
  unfold eval_internal_actions
  dsimp only
  rw [h1]

end SweBench
